import Mathlib

/-!
Shallow embedding of the Career Co-Pilot recommendation pipeline.

The definitions below are translated from the JavaScript sources of the
repository: `functions/utils.js` (skill normalisation, vectors, cosine
similarity, overlap ratio, fit score, profile sanitisation),
`functions/schema.js` (zod schemas), `functions/validation.js`
(hand-written validators), `functions/fallbackPlan.js`
(deterministic fallback plan generator) and the recommendation endpoint of
`functions/index.js` (the later, canonical implementation around lines
1002-1400 of the concatenated file).

JavaScript numbers are modelled as `ℚ` where the source only performs
exact arithmetic and comparisons, and as `ℝ` where square roots are taken
(`Math.sqrt`) or where real-valued rounding (`Math.round`) happens.
JavaScript strings are modelled as `String`; `trim`, `toLowerCase`,
`slice`, `includes` are given explicit models below.
-/

/-- Model of the JavaScript whitespace test used by `String.prototype.trim`,
restricted to the usual ASCII whitespace characters. -/
def jsWS (c : Char) : Bool := c.isWhitespace

/-- Model of `trim` on a character list: drop whitespace from both ends. -/
def jsTrimL (l : List Char) : List Char :=
  ((l.dropWhile jsWS).reverse.dropWhile jsWS).reverse

/-- Model of `String.prototype.trim`. -/
def jsTrim (s : String) : String := ⟨jsTrimL s.data⟩

/-- Model of `String.prototype.toLowerCase` (ASCII case folding),
mapping `Char.toLower` over the characters. -/
def jsToLower (s : String) : String := ⟨s.data.map Char.toLower⟩

/-- Model of `String.prototype.slice(0, n)`. -/
def jsSlice (s : String) (n : Nat) : String := ⟨s.data.take n⟩

/-- Substring test on character lists, modelling `String.prototype.includes`. -/
def jsIncludesL (hay needle : List Char) : Bool :=
  match hay with
  | [] => needle.isEmpty
  | c :: t => needle.isPrefixOf (c :: t) || jsIncludesL t needle

/-- Model of `String.prototype.includes`. -/
def jsIncludes (hay needle : String) : Bool := jsIncludesL hay.data needle.data

/-- First-occurrence deduplication, with an accumulator of already seen
entries; models the JavaScript idiom
`arr.filter((s, i) => arr.indexOf(s) === i)` and insertion-ordered `Set`s. -/
def dedupFirstAux (seen : List String) : List String → List String
  | [] => []
  | s :: rest =>
    if s ∈ seen then dedupFirstAux seen rest
    else s :: dedupFirstAux (s :: seen) rest

/-- First-occurrence deduplication of a list of strings. -/
def dedupFirst (l : List String) : List String := dedupFirstAux [] l

/-- Comma-space join of a list of strings, modelling `Array.prototype.join(', ')`. -/
def joinComma : List String → String
  | [] => ""
  | [a] => a
  | a :: rest => a ++ ", " ++ joinComma rest

/-- The synonym table of `normalizeSkills` in `functions/utils.js`. -/
def synonymsTable : List (String × String) :=
  [("excel", "spreadsheets"),
   ("spreadsheets", "excel"),
   ("javascript", "js"),
   ("js", "javascript"),
   ("python", "python"),
   ("react", "react"),
   ("node", "nodejs"),
   ("nodejs", "node"),
   ("aws", "amazon web services"),
   ("amazon web services", "aws"),
   ("machine learning", "ml"),
   ("ml", "machine learning"),
   ("artificial intelligence", "ai"),
   ("ai", "artificial intelligence")]

/-- Model of `normalizeSkills` from `functions/utils.js`: lowercase and trim
each skill, apply the synonym table, deduplicate keeping first occurrences,
truncate to 50 entries. -/
def normalizeSkills (skills : List String) : List String :=
  (dedupFirst
    ((skills.map (fun s => jsTrim (jsToLower s))).map
      (fun s => (((synonymsTable.find? (fun kv => kv.1 == s)).map (fun kv => kv.2)).getD s)))).take 50

/-- A skill of a role definition: a name and a weight
(`{name, weight}` pairs in `roles.json`). -/
structure RoleSkill where
  name : String
  weight : ℚ
deriving DecidableEq

/-- A role definition from the static catalog. -/
structure RoleDef where
  roleId : String
  title : String
  description : String
  skills : List RoleSkill
deriving DecidableEq

/-- A sparse skill vector: a JavaScript object mapping skill names to
weights, modelled as an association list of assignments in program order
(later assignments to the same key overwrite earlier ones). -/
abbrev SkillVector := List (String × ℚ)

/-- Value of a key in a skill vector: the last assignment wins, a missing
key reads as `0` (the `a[k] || 0` idiom of `cosine`). -/
def svVal (v : SkillVector) (k : String) : ℚ :=
  (((v.reverse).find? (fun p => p.1 == k)).map (fun p => p.2)).getD 0

/-- Keys of a skill vector in first-insertion order (`Object.keys`). -/
def svKeys (v : SkillVector) : List String := dedupFirst (v.map (fun p => p.1))

/-- Model of `buildUserVector` from `functions/utils.js`: weight `1.0` for
each lowercased, trimmed skill. -/
def buildUserVector (skills : List String) : SkillVector :=
  skills.map (fun s => (jsTrim (jsToLower s), (1 : ℚ)))

/-- Model of `buildRoleVector` from `functions/utils.js`: the declared
weight per lowercased, trimmed skill name, where a falsy weight (`0`)
defaults to `1.0` (the `weight || 1.0` idiom). -/
def buildRoleVector (role : RoleDef) : SkillVector :=
  role.skills.map (fun s => (jsTrim (jsToLower s.name), if s.weight = 0 then 1 else s.weight))

/-- Union of the key sets of two vectors, in insertion order
(`new Set([...Object.keys(a), ...Object.keys(b)])`). -/
def unionKeys (a b : SkillVector) : List String := dedupFirst (svKeys a ++ svKeys b)

/-- Dot product accumulated by the loop of `cosine` over the union of keys. -/
def dotOver (a b : SkillVector) : ℚ :=
  ∑ k ∈ (unionKeys a b).toFinset, svVal a k * svVal b k

/-- Squared magnitude of the first vector, accumulated by the same loop. -/
def naOver (a b : SkillVector) : ℚ :=
  ∑ k ∈ (unionKeys a b).toFinset, svVal a k * svVal a k

/-- Squared magnitude of the second vector, accumulated by the same loop. -/
def nbOver (a b : SkillVector) : ℚ :=
  ∑ k ∈ (unionKeys a b).toFinset, svVal b k * svVal b k

/-- Model of `cosine` from `functions/utils.js`: cosine similarity over the
union of keys, `0` whenever either magnitude is zero (the explicit
`if (na === 0 || nb === 0) return 0` guard). -/
noncomputable def cosine (a b : SkillVector) : ℝ :=
  if naOver a b = 0 ∨ nbOver a b = 0 then 0
  else (dotOver a b : ℝ) / (Real.sqrt (naOver a b) * Real.sqrt (nbOver a b))

/-- Model of `overlapRatio` from `functions/utils.js` (the name carries an
`Fn` suffix for technical reasons): the number of distinct role skills
present in the user's skill set divided by the number of distinct role
skills, `0` for a role with no skills. -/
def overlapRatioFn (userSkills : List String) (role : RoleDef) : ℚ :=
  let userSet := dedupFirst (userSkills.map (fun s => jsTrim (jsToLower s)))
  let roleSet := dedupFirst (role.skills.map (fun s => jsTrim (jsToLower s.name)))
  if roleSet.length = 0 then 0
  else (roleSet.countP (fun s => userSet.contains s) : ℚ) / (roleSet.length : ℚ)

/-- Model of `calculateSkillOverlap` from `functions/utils.js`: partition
the role's skills, in catalog order and original spelling, into those whose
lowercased name is among the user's lowercased skills and those that are
not; both lists are truncated to 20 entries.  Note the source lowercases
without trimming here. -/
def calculateSkillOverlap (userSkills : List String) (role : RoleDef) :
    List String × List String :=
  let userSet := userSkills.map jsToLower
  let overlap := (role.skills.filter (fun sk => userSet.contains (jsToLower sk.name))).map
    (fun sk => sk.name)
  let gaps := (role.skills.filter (fun sk => !userSet.contains (jsToLower sk.name))).map
    (fun sk => sk.name)
  (overlap.take 20, gaps.take 20)

/-- Model of `Math.round`: round half up. -/
noncomputable def jsRound (x : ℝ) : ℤ := ⌊x + 1 / 2⌋

/-- Model of `formatFitScore` from `functions/utils.js`:
`round((0.6*cosine + 0.4*overlap) * 100)` clamped to `[0, 100]`. -/
noncomputable def formatFitScore (c o : ℝ) : ℤ :=
  max 0 (min 100 (jsRound ((0.6 * c + 0.4 * o) * 100)))

/-- Model of `Number(x.toFixed(4))` on a real value. -/
noncomputable def toFixed4 (x : ℝ) : ℝ := (⌊x * 10000 + 1 / 2⌋ : ℤ) / 10000

/-- Model of `Number(x.toFixed(4))` on a rational value. -/
def toFixed4Q (x : ℚ) : ℚ := (⌊x * 10000 + 1 / 2⌋ : ℤ) / 10000

/-- A raw profile as posted to `/api/recommend`.  Besides the documented
fields it carries the sensitive attributes that `sanitizeProfile`
explicitly discards. -/
structure RawProfile where
  name : String
  education : String
  skills : List String
  interests : List String
  weeklyTime : ℚ
  budget : String
  language : String
  gender : String
  caste : String
  religion : String
  address : String
  collegeTier : String
deriving DecidableEq

/-- A sanitized profile, the shape produced by `sanitizeProfile`. -/
structure UserProfile where
  name : String
  education : String
  skills : List String
  interests : List String
  weeklyTime : ℚ
  budget : String
  language : String
deriving DecidableEq

/-- Model of `sanitizeProfile` from `functions/utils.js`: keep only the
documented fields (dropping `gender`, `caste`, `religion`, `address`,
`collegeTier`), bound the string lengths, normalise skills and interests,
clamp the weekly time to `[1, 30]` with default `6`, and whitelist budget
and language. -/
def sanitizeProfile (p : RawProfile) : UserProfile where
  name := jsSlice p.name 80
  education := jsSlice (if p.education = "" then "Other" else p.education) 40
  skills := normalizeSkills p.skills
  interests := (p.interests.map (fun s => jsTrim (jsToLower s))).take 20
  weeklyTime := max 1 (min 30 (if p.weeklyTime = 0 then 6 else p.weeklyTime))
  budget := if p.budget = "free" ∨ p.budget = "low" ∨ p.budget = "any" then p.budget else "free"
  language := if p.language = "en" ∨ p.language = "hi" then p.language else "en"

/-- Model of the zod `UserProfileSchema` from `functions/schema.js`,
checked against the raw request body.  The `weeklyTime` integrality test
models `z.number().int()`. -/
def userProfileValid (p : RawProfile) : Bool :=
  decide (1 ≤ p.name.length) && decide (p.name.length ≤ 80) &&
  decide (1 ≤ p.education.length) && decide (p.education.length ≤ 40) &&
  decide (1 ≤ p.skills.length) && decide (p.skills.length ≤ 50) &&
  decide (1 ≤ p.interests.length) && decide (p.interests.length ≤ 20) &&
  decide (p.weeklyTime.den = 1) &&
  decide (1 ≤ p.weeklyTime) && decide (p.weeklyTime ≤ 30) &&
  (p.budget == "free" || p.budget == "low" || p.budget == "any") &&
  (p.language == "en" || p.language == "hi")

/-- A week entry of a learning plan.  The `week` number is an integer by
construction, matching `z.number().int()` and the `typeof === 'number'`
checks of the hand-written validator. -/
structure WeekPlan where
  week : ℤ
  topics : List String
  practice : List String
  assessment : String
  project : String
deriving DecidableEq

/-- A learning plan: a list of week entries. -/
structure Plan where
  weeks : List WeekPlan
deriving DecidableEq

/-- Model of the zod `WeekSchema` from `functions/schema.js`. -/
def weekSchemaValid (w : WeekPlan) : Bool :=
  decide (1 ≤ w.week) && decide (w.week ≤ 4) &&
  decide (1 ≤ w.topics.length) && decide (w.topics.length ≤ 10) &&
  decide (1 ≤ w.practice.length) && decide (w.practice.length ≤ 8) &&
  decide (3 ≤ w.assessment.length) && decide (w.assessment.length ≤ 200) &&
  decide (3 ≤ w.project.length) && decide (w.project.length ≤ 200)

/-- Model of the zod `PlanSchema` from `functions/schema.js`:
a `weeks` array of exactly 4 elements, each a valid week. -/
def planSchemaValid (p : Plan) : Bool :=
  decide (p.weeks.length = 4) && p.weeks.all weekSchemaValid

/-- Model of `validateWeek` from `functions/validation.js`, as the
predicate deciding whether the returned record has `isValid: true`:
week number in `1..4`, non-empty `topics` and `practice` arrays of
non-blank strings, non-blank `assessment` and `project`. -/
def validateWeek (w : WeekPlan) : Bool :=
  decide (1 ≤ w.week) && decide (w.week ≤ 4) &&
  (!w.topics.isEmpty) && w.topics.all (fun t => !decide ((jsTrim t).length = 0)) &&
  (!w.practice.isEmpty) && w.practice.all (fun t => !decide ((jsTrim t).length = 0)) &&
  (!decide ((jsTrim w.assessment).length = 0)) && (!decide ((jsTrim w.project).length = 0))

/-- Model of `validateLearningPlan` from `functions/validation.js`,
as the predicate deciding whether the returned record has `isValid: true`:
exactly 4 weeks, each passing `validateWeek`. -/
def validateLearningPlan (p : Plan) : Bool :=
  decide (p.weeks.length = 4) && p.weeks.all validateWeek

/-- A recommendation item as assembled by the `/api/recommend` endpoint
(the presentational `metrics` field of the source carries no contract and
is omitted). -/
structure Recommendation where
  roleId : String
  title : String
  fitScore : ℤ
  why : String
  overlapSkills : List String
  gapSkills : List String
  plan : Plan
deriving DecidableEq

/-- Model of the zod `RecommendationItemSchema` from `functions/schema.js`. -/
def recItemValid (r : Recommendation) : Bool :=
  decide (1 ≤ r.roleId.length) && decide (r.roleId.length ≤ 50) &&
  decide (1 ≤ r.title.length) && decide (r.title.length ≤ 100) &&
  decide (0 ≤ r.fitScore) && decide (r.fitScore ≤ 100) &&
  decide (10 ≤ r.why.length) && decide (r.why.length ≤ 600) &&
  decide (r.overlapSkills.length ≤ 20) && decide (r.gapSkills.length ≤ 20) &&
  planSchemaValid r.plan

/-- Model of the zod `RecommendationResponseSchema` from
`functions/schema.js`: exactly 3 valid recommendation items. -/
def recResponseValid (recs : List Recommendation) : Bool :=
  decide (recs.length = 3) && recs.all recItemValid

/-- A role scored against a profile, as produced inside
`calculateTop3Roles` in `functions/index.js`. -/
structure ScoredRole where
  role : RoleDef
  score : ℤ
  overlap : List String
  gaps : List String
  metricsCos : ℝ
  metricsOv : ℚ

/-- Scoring of a single catalog role inside `calculateTop3Roles`:
cosine of the user and role vectors, overlap ratio, fit score, and the
overlap/gap partition. -/
noncomputable def scoreRole (profile : UserProfile) (role : RoleDef) : ScoredRole :=
  let userVector := buildUserVector profile.skills
  let roleVector := buildRoleVector role
  let cosineScore := cosine userVector roleVector
  let og := calculateSkillOverlap profile.skills role
  let oRat := overlapRatioFn profile.skills role
  { role := role
    score := formatFitScore cosineScore (oRat : ℝ)
    overlap := og.1
    gaps := og.2
    metricsCos := toFixed4 cosineScore
    metricsOv := toFixed4Q oRat }

/-- The ordering used by `scoredRoles.sort((a, b) => b.score - a.score)`:
descending fit score.  JavaScript's `Array.prototype.sort` is stable, so
the sort is modelled by stable insertion sort under this relation. -/
def scoreDescRel (a b : ScoredRole) : Prop := b.score ≤ a.score

instance : DecidableRel scoreDescRel := fun a b =>
  inferInstanceAs (Decidable (b.score ≤ a.score))

instance : IsTotal ScoredRole scoreDescRel :=
  ⟨fun a b => le_total b.score a.score⟩

instance : IsTrans ScoredRole scoreDescRel :=
  ⟨fun _ _ _ h1 h2 => le_trans h2 h1⟩

/-- Model of `calculateTop3Roles` from `functions/index.js`: score every
catalog role, sort descending by score (stably), take the first three.
The catalog is passed explicitly (the source reads a module-level
`roles.json`). -/
noncomputable def calculateTop3Roles (profile : UserProfile) (catalog : List RoleDef) :
    List ScoredRole :=
  ((catalog.map (scoreRole profile)).insertionSort scoreDescRel).take 3

/-- Model of `deterministicFallbackPlan` from `functions/index.js`: a
4-week template plan built from the role title and the top gap skills.
An out-of-range gap lookup in the source interpolates as the string
`"undefined"`, which the model reproduces. -/
def deterministicFallbackPlan (profile : UserProfile) (gapSkills : List String)
    (roleTitle : String) : Plan :=
  let topGaps := gapSkills.take 6
  { weeks := (List.range 4).map (fun (i : Nat) =>
      { week := (i : ℤ) + 1
        topics :=
          [if i = 0 then "Foundations of " ++ roleTitle
           else "Deep dive: " ++ topGaps.getD (i % max 1 topGaps.length) "undefined",
           if i < topGaps.length then "Concepts: " ++ topGaps.getD i "undefined"
           else "Practice & review"]
        practice :=
          ["Hands-on exercises (free tutorials, official docs)",
           "Implement small features or scripts"]
        assessment := "Self-check with quizzes or coding challenges"
        project :=
          if i = 3 then "Capstone: Build a small " ++ roleTitle ++ " portfolio piece"
          else "Mini project applying weekly topics" }) }

/-- The `baseTopics` table of `deterministicPlanForRole` in
`functions/fallbackPlan.js`: role-keyed 4-step topic/practice pairs. -/
def baseTopics : List (String × List (String × String)) :=
  [("frontend_developer",
    [("React Fundamentals", "Build a simple todo app"),
     ("State Management & Hooks", "Create a shopping cart component"),
     ("Routing & API Integration", "Build a weather app with API"),
     ("Testing & Deployment", "Deploy your app to Vercel")]),
   ("data_analyst",
    [("SQL basics & Joins", "Analyze sample dataset"),
     ("Excel & Pivot tables", "Data cleaning exercise"),
     ("Data visualization basics", "Create charts and dashboard"),
     ("Capstone: Complete analysis", "Present findings report")]),
   ("uiux_designer",
    [("Design basics & Figma intro", "Redesign a simple page"),
     ("Wireframes & user flows", "Create 2 wireframes"),
     ("Prototyping & usability testing", "Run quick usability test"),
     ("Capstone: Prototype an app page", "Usability report")]),
   ("backend_developer",
    [("Node.js & Express basics", "Build a simple API"),
     ("Database integration", "Connect to MongoDB"),
     ("Authentication & Security", "Add JWT authentication"),
     ("Deployment & Testing", "Deploy to cloud platform")]),
   ("mobile_developer",
    [("React Native basics", "Build a simple mobile app"),
     ("Navigation & State", "Add navigation between screens"),
     ("API Integration", "Connect to backend services"),
     ("Testing & Publishing", "Test on device and publish")]),
   ("product_manager",
    [("Product Strategy & Market Research", "Create user personas"),
     ("User Research & Interviews", "Conduct user interviews"),
     ("Agile Methodology", "Create product backlog"),
     ("Metrics & Analytics", "Design product metrics")]),
   ("cybersecurity_analyst",
    [("Security Fundamentals", "Analyze security vulnerabilities"),
     ("Network Security", "Configure firewall rules"),
     ("Incident Response", "Simulate security incident"),
     ("Compliance & Reporting", "Create security report")]),
   ("cloud_engineer",
    [("AWS/Cloud basics", "Deploy a simple application"),
     ("Infrastructure as Code", "Create Terraform templates"),
     ("Monitoring & Logging", "Set up monitoring dashboard"),
     ("DevOps & CI/CD", "Create deployment pipeline")]),
   ("machine_learning_engineer",
    [("Python & Data Science", "Clean and analyze dataset"),
     ("ML Algorithms", "Build a simple ML model"),
     ("Model Training & Evaluation", "Train and test model"),
     ("Deployment & Production", "Deploy model to production")]),
   ("devops_engineer",
    [("Docker & Containers", "Containerize an application"),
     ("Kubernetes & Orchestration", "Deploy to Kubernetes"),
     ("CI/CD Pipelines", "Create automated pipeline"),
     ("Monitoring & Alerting", "Set up monitoring system")])]

/-- The generic 4-step template used when no table key matches. -/
def genericTopics : List (String × String) :=
  [("Core concept 1", "Hands-on practice 1"),
   ("Core concept 2", "Hands-on practice 2"),
   ("Core concept 3", "Hands-on practice 3"),
   ("Capstone project", "Final deliverable")]

/-- Keeps a lowercase letter or digit, replaces any other character with
an underscore: the `replace(/[^a-z0-9]/g, '_')` step. -/
def underscoreNonAlnum (c : Char) : Char :=
  if ('a' ≤ c ∧ c ≤ 'z') ∨ ('0' ≤ c ∧ c ≤ '9') then c else '_'

/-- Collapses runs of underscores to a single underscore, carrying a flag
telling whether the previous kept character was an underscore: the
`replace(/_+/g, '_')` step. -/
def collapseUnderscores (prevU : Bool) : List Char → List Char
  | [] => []
  | c :: rest =>
    if c = '_' then
      if prevU then collapseUnderscores true rest
      else '_' :: collapseUnderscores true rest
    else c :: collapseUnderscores false rest

/-- Role-title normalisation of `deterministicPlanForRole`: lowercase,
replace non-alphanumerics with underscores, collapse underscore runs. -/
def normalizeRoleTitle (roleTitle : String) : String :=
  ⟨collapseUnderscores false ((jsToLower roleTitle).data.map underscoreNonAlnum)⟩

/-- The if/else chain of partial matches in `deterministicPlanForRole`,
tried when no table key matches by substring inclusion. -/
def partialRoleKey (nr : String) : Option String :=
  if jsIncludes nr "frontend" || jsIncludes nr "react" then some "frontend_developer"
  else if jsIncludes nr "data" || jsIncludes nr "analyst" then some "data_analyst"
  else if jsIncludes nr "ui" || jsIncludes nr "ux" || jsIncludes nr "design" then
    some "uiux_designer"
  else if jsIncludes nr "backend" || jsIncludes nr "api" then some "backend_developer"
  else if jsIncludes nr "mobile" || jsIncludes nr "app" then some "mobile_developer"
  else if jsIncludes nr "product" || jsIncludes nr "manager" then some "product_manager"
  else if jsIncludes nr "security" || jsIncludes nr "cyber" then some "cybersecurity_analyst"
  else if jsIncludes nr "cloud" || jsIncludes nr "aws" then some "cloud_engineer"
  else if jsIncludes nr "machine" || jsIncludes nr "ml" || jsIncludes nr "ai" then
    some "machine_learning_engineer"
  else if jsIncludes nr "devops" || jsIncludes nr "deployment" then some "devops_engineer"
  else none

/-- The role key selected by `deterministicPlanForRole`: first a substring
match against the table keys in declaration order, then the partial-match
chain. -/
def selectedRoleKey (roleTitle : String) : Option String :=
  let nr := normalizeRoleTitle roleTitle
  match baseTopics.find? (fun kv => jsIncludes nr kv.1 || jsIncludes kv.1 nr) with
  | some kv => some kv.1
  | none => partialRoleKey nr

/-- The topic/practice table chosen for a role title: the matched table
entry, or the generic template (`baseTopics[roleKey] || [...]`). -/
def chosenTopics (roleTitle : String) : List (String × String) :=
  (((selectedRoleKey roleTitle).bind
      (fun k => (baseTopics.find? (fun kv => kv.1 == k)).map (fun kv => kv.2))).getD
    genericTopics)

/-- Model of `deterministicPlanForRole` from `functions/fallbackPlan.js`:
map the chosen 4-entry table to week records (`gapSkills` and `profile`
are accepted but unused, as in the source). -/
def deterministicPlanForRole (roleTitle : String) (gapSkills : List String)
    (profile : UserProfile) : Plan :=
  let _ := gapSkills
  let _ := profile
  { weeks := (chosenTopics roleTitle).enum.map (fun iw =>
      { week := (iw.1 : ℤ) + 1
        topics := [iw.2.1]
        practice := [iw.2.2]
        assessment :=
          "Short checklist and 5 quick quiz questions for week " ++ toString (iw.1 + 1)
        project :=
          if iw.1 == 3 then "Capstone project for " ++ roleTitle
          else "Mini project for week " ++ toString (iw.1 + 1) }) }

/-- Outcome of one generative-backend attempt for a plan, as observed by
`generateLearningPlan`: the call itself may fail (`backendError`, a thrown
`geminiCall` error), the returned text may fail `JSON.parse` after cleanup
(`parseFail`), or it parses to a candidate plan (`parsed`). -/
inductive GenAttempt where
  | backendError : GenAttempt
  | parseFail : GenAttempt
  | parsed : Plan → GenAttempt
deriving DecidableEq

/-- Model of `generateLearningPlan` from `functions/index.js` (canonical
version, lines 1204-1245), parametrised by the outcomes of the first
(flash-model) and second (pro-model) backend attempts.  Returns the plan
together with the number of backend calls made.  A retry happens only when
the first response fails `JSON.parse`; every other failure path lands in
`deterministicFallbackPlan` via the outer `catch`. -/
def generateLearningPlan (first second : GenAttempt) (profile : UserProfile)
    (gapSkills : List String) (roleTitle : String) : Plan × Nat :=
  match first with
  | .backendError => (deterministicFallbackPlan profile gapSkills roleTitle, 1)
  | .parsed p =>
    if planSchemaValid p then (p, 1)
    else (deterministicFallbackPlan profile gapSkills roleTitle, 1)
  | .parseFail =>
    match second with
    | .backendError => (deterministicFallbackPlan profile gapSkills roleTitle, 2)
    | .parseFail => (deterministicFallbackPlan profile gapSkills roleTitle, 2)
    | .parsed p =>
      if planSchemaValid p then (p, 2)
      else (deterministicFallbackPlan profile gapSkills roleTitle, 2)

/-- Model of `generateExplanation` from `functions/index.js`: the trimmed
backend text when the call succeeds, otherwise the template fallback
sentence built from the overlap count and up to 3 gap skills. -/
def generateExplanation (attempt : Option String) (overlapSkills gapSkills : List String) :
    String :=
  match attempt with
  | some text => jsTrim text
  | none =>
    "This role fits your profile based on your " ++ toString overlapSkills.length ++
    " matching skills. Focus on learning " ++ joinComma (gapSkills.take 3) ++
    " to excel in this career path."

/-- Result of the `/api/recommend` endpoint, abstracting HTTP statuses:
`configError` (500, missing API key), `badRequest` (400, invalid profile),
`serverError` (500) and `ok` (the JSON response). -/
inductive RecommendResult where
  | configError : String → RecommendResult
  | badRequest : String → RecommendResult
  | serverError : String → RecommendResult
  | ok : List Recommendation → RecommendResult
deriving DecidableEq

/-- Whether a `RecommendResult` is a success response. -/
def RecommendResult.isOk : RecommendResult → Bool
  | .ok _ => true
  | _ => false

/-- Assembly of one recommendation item in the loop of the
`/api/recommend` handler. -/
noncomputable def buildRecommendation (profile : UserProfile)
    (whyAttempt : RoleDef → Option String) (planAttempts : RoleDef → GenAttempt × GenAttempt)
    (sr : ScoredRole) : Recommendation :=
  { roleId := sr.role.roleId
    title := sr.role.title
    fitScore := sr.score
    why := generateExplanation (whyAttempt sr.role) sr.overlap sr.gaps
    overlapSkills := sr.overlap
    gapSkills := sr.gaps
    plan := (generateLearningPlan (planAttempts sr.role).1 (planAttempts sr.role).2
      profile sr.gaps sr.role.title).1 }

/-- Model of the `/api/recommend` handler from `functions/index.js`
(canonical version, lines 1250-1360), parametrised by the API-key
configuration and by the per-role backend outcomes.  Persistence and
analytics side effects are outside the model. -/
noncomputable def recommendCore (apiKeyConfigured : Bool) (catalog : List RoleDef)
    (rawProfile : RawProfile) (whyAttempt : RoleDef → Option String)
    (planAttempts : RoleDef → GenAttempt × GenAttempt) : RecommendResult :=
  if !apiKeyConfigured then
    .configError "Server not configured. Please contact administrator."
  else if !userProfileValid rawProfile then
    .badRequest "Invalid profile data"
  else
    let profile := sanitizeProfile rawProfile
    let topRoles := calculateTop3Roles profile catalog
    if topRoles.isEmpty then
      .serverError "No suitable roles found. Please try with different skills."
    else
      let recommendations := topRoles.map (buildRecommendation profile whyAttempt planAttempts)
      if !recResponseValid recommendations then
        .serverError "Generated recommendations are invalid. Please try again."
      else
        .ok recommendations

/-- The `/api/recommend` handler in the fully degraded regime: the API key
is configured but every generative call fails, so each role takes the
deterministic fallback path for both the explanation and the plan. -/
noncomputable def recommendFallback (catalog : List RoleDef) (rawProfile : RawProfile) :
    RecommendResult :=
  recommendCore true catalog rawProfile (fun _ => none)
    (fun _ => (GenAttempt.backendError, GenAttempt.backendError))

/-- The "Frontend Developer" role of the concrete scenario in the spec. -/
def frontendRole : RoleDef where
  roleId := "frontend_developer"
  title := "Frontend Developer"
  description := "Builds user interfaces"
  skills :=
    [{ name := "JavaScript", weight := 1 },
     { name := "HTML", weight := 1 },
     { name := "CSS", weight := 1 },
     { name := "React", weight := 1 },
     { name := "TypeScript", weight := 1 }]

/-- A role used to exercise the overlap-ratio contract. -/
def sqlRole : RoleDef where
  roleId := "data_analyst"
  title := "Data Analyst"
  description := "Works with data"
  skills := [{ name := "SQL", weight := 1 }]

/-- A backend role completing a three-role example catalog. -/
def backendRole : RoleDef where
  roleId := "backend_developer"
  title := "Backend Developer"
  description := "Builds APIs"
  skills := [{ name := "Node", weight := 1 }, { name := "SQL", weight := 1 }]

/-- A three-role example catalog. -/
def exCatalog : List RoleDef := [frontendRole, sqlRole, backendRole]

/-- A schema-valid raw profile used as concrete input. -/
def exRawProfile : RawProfile where
  name := "Asha"
  education := "BTech"
  skills := ["sql", "html"]
  interests := ["web"]
  weeklyTime := 6
  budget := "free"
  language := "en"
  gender := ""
  caste := ""
  religion := ""
  address := ""
  collegeTier := ""

/-- A raw profile agreeing with `exRawProfile` on every documented field
but differing on every sensitive attribute. -/
def exRawProfileSensitive : RawProfile where
  name := "Asha"
  education := "BTech"
  skills := ["sql", "html"]
  interests := ["web"]
  weeklyTime := 6
  budget := "free"
  language := "en"
  gender := "female"
  caste := "general"
  religion := "hindu"
  address := "42 Park Street"
  collegeTier := "tier-3"

/-- The sanitized example profile. -/
def exProfile : UserProfile := sanitizeProfile exRawProfile

/-- A candidate plan with an empty `weeks` array: it parses as JSON but
fails the plan schema. -/
def emptyPlan : Plan := { weeks := [] }

/-- A well-formed week record carrying a given week number. -/
def mkDupWeek (n : ℤ) : WeekPlan where
  week := n
  topics := ["Sample topic"]
  practice := ["Sample practice"]
  assessment := "Sample assessment"
  project := "Sample project"

/-- A candidate plan whose four week entries are numbered 1, 1, 2, 3:
every number is in range but week 1 repeats and week 4 is missing. -/
def dupWeekPlan : Plan :=
  { weeks := [mkDupWeek 1, mkDupWeek 1, mkDupWeek 2, mkDupWeek 3] }

/-! ### Basic lemmas about the string and list helpers -/

theorem mem_dedupFirstAux {x : String} :
    ∀ {l seen : List String}, x ∈ dedupFirstAux seen l ↔ (x ∈ l ∧ x ∉ seen) := by
  intro l
  induction l with
  | nil => intro seen; simp [dedupFirstAux]
  | cons s rest ih =>
    intro seen
    by_cases hs : s ∈ seen
    · rw [dedupFirstAux, if_pos hs, ih]
      constructor
      · rintro ⟨hx, hns⟩
        exact ⟨List.mem_cons_of_mem _ hx, hns⟩
      · rintro ⟨hx, hns⟩
        rcases List.mem_cons.mp hx with rfl | hx
        · exact absurd hs hns
        · exact ⟨hx, hns⟩
    · rw [dedupFirstAux, if_neg hs]
      constructor
      · intro hmem
        rcases List.mem_cons.mp hmem with rfl | hmem
        · exact ⟨List.mem_cons_self _ _, hs⟩
        · rcases ih.mp hmem with ⟨hx, hns⟩
          exact ⟨List.mem_cons_of_mem _ hx, fun h => hns (List.mem_cons_of_mem _ h)⟩
      · rintro ⟨hx, hns⟩
        rcases List.mem_cons.mp hx with rfl | hx
        · exact List.mem_cons_self _ _
        · by_cases hxs : x = s
          · subst hxs; exact List.mem_cons_self _ _
          · apply List.mem_cons_of_mem
            apply ih.mpr
            refine ⟨hx, fun h => ?_⟩
            rcases List.mem_cons.mp h with h | h
            · exact hxs h
            · exact hns h

theorem mem_dedupFirst {x : String} {l : List String} : x ∈ dedupFirst l ↔ x ∈ l := by
  unfold dedupFirst
  rw [mem_dedupFirstAux]
  simp

theorem dedupFirst_cons (a : String) (l : List String) :
    dedupFirst (a :: l) = a :: dedupFirstAux [a] l := by
  simp [dedupFirst, dedupFirstAux]

theorem jsTrimL_ne_nil {l : List Char} {c : Char} (hc : c ∈ l) (hw : jsWS c = false) :
    jsTrimL l ≠ [] := by
  unfold jsTrimL
  have h1 : c ∈ l.dropWhile jsWS := by
    have hsplit := List.takeWhile_append_dropWhile (p := jsWS) (l := l)
    rw [← hsplit] at hc
    rcases List.mem_append.mp hc with h | h
    · have := List.mem_takeWhile_imp h
      rw [hw] at this
      exact absurd this (by simp)
    · exact h
  have h2 : c ∈ (l.dropWhile jsWS).reverse := List.mem_reverse.mpr h1
  intro hnil
  rw [List.reverse_eq_nil_iff, List.dropWhile_eq_nil_iff] at hnil
  have := hnil c h2
  rw [hw] at this
  exact absurd this (by simp)

theorem jsTrim_length_ne_zero {s : String} {c : Char} (hc : c ∈ s.data)
    (hw : jsWS c = false) : (jsTrim s).length ≠ 0 := by
  have hne := jsTrimL_ne_nil hc hw
  simp only [jsTrim, String.length]
  intro hlen
  exact hne (List.length_eq_zero.mp hlen)

/-! ### Lemmas about skill vectors and cosine similarity -/

theorem svVal_nonneg {v : SkillVector} (h : ∀ p ∈ v, 0 ≤ p.2) (k : String) :
    0 ≤ svVal v k := by
  unfold svVal
  cases hf : (v.reverse).find? (fun p => p.1 == k) with
  | none => simp
  | some p =>
    simp only [Option.map_some', Option.getD_some]
    exact h p (List.mem_reverse.mp (List.mem_of_find?_eq_some hf))

theorem svVal_eq_zero_of_not_mem {v : SkillVector} {k : String} (h : k ∉ svKeys v) :
    svVal v k = 0 := by
  unfold svVal
  cases hf : (v.reverse).find? (fun p => p.1 == k) with
  | none => simp
  | some p =>
    exfalso
    apply h
    have hp : p ∈ v := List.mem_reverse.mp (List.mem_of_find?_eq_some hf)
    have hk : p.1 = k := by
      have := List.find?_some hf
      simpa using this
    unfold svKeys
    rw [mem_dedupFirst]
    exact hk ▸ List.mem_map_of_mem (fun q => q.1) hp

theorem naOver_nonneg (a b : SkillVector) : 0 ≤ naOver a b :=
  Finset.sum_nonneg (fun _ _ => mul_self_nonneg _)

theorem nbOver_nonneg (a b : SkillVector) : 0 ≤ nbOver a b :=
  Finset.sum_nonneg (fun _ _ => mul_self_nonneg _)

theorem dotOver_cast (a b : SkillVector) :
    ((dotOver a b : ℚ) : ℝ) =
      ∑ k ∈ (unionKeys a b).toFinset, (svVal a k : ℝ) * (svVal b k : ℝ) := by
  unfold dotOver
  push_cast
  rfl

theorem naOver_cast (a b : SkillVector) :
    ((naOver a b : ℚ) : ℝ) = ∑ k ∈ (unionKeys a b).toFinset, (svVal a k : ℝ) ^ 2 := by
  unfold naOver
  push_cast
  refine Finset.sum_congr rfl (fun k _ => ?_)
  ring

theorem nbOver_cast (a b : SkillVector) :
    ((nbOver a b : ℚ) : ℝ) = ∑ k ∈ (unionKeys a b).toFinset, (svVal b k : ℝ) ^ 2 := by
  unfold nbOver
  push_cast
  refine Finset.sum_congr rfl (fun k _ => ?_)
  ring

/-- Claim C8: for every pair of non-negatively weighted skill vectors,
`cosine` lies in `[0, 1]`; it returns `0` (not NaN) whenever either vector
has zero magnitude, so in particular for two empty vectors, and it returns
`0` for vectors with disjoint key sets. -/
theorem cosine_spec (a b : SkillVector) :
    ((∀ p ∈ a, 0 ≤ p.2) → (∀ p ∈ b, 0 ≤ p.2) →
      0 ≤ cosine a b ∧ cosine a b ≤ 1) ∧
    (naOver a b = 0 ∨ nbOver a b = 0 → cosine a b = 0) ∧
    ((∀ k ∈ svKeys a, k ∉ svKeys b) → cosine a b = 0) ∧
    cosine ([] : SkillVector) ([] : SkillVector) = 0 := by
  refine ⟨?_, ?_, ?_, ?_⟩
  · intro ha hb
    unfold cosine
    split_ifs with h
    · exact ⟨le_refl 0, zero_le_one⟩
    · push_neg at h
      obtain ⟨hna, hnb⟩ := h
      have hna' : 0 < ((naOver a b : ℚ) : ℝ) := by
        have h0 : 0 < naOver a b := lt_of_le_of_ne (naOver_nonneg a b) (Ne.symm hna)
        exact_mod_cast h0
      have hnb' : 0 < ((nbOver a b : ℚ) : ℝ) := by
        have h0 : 0 < nbOver a b := lt_of_le_of_ne (nbOver_nonneg a b) (Ne.symm hnb)
        exact_mod_cast h0
      have hsa : 0 < Real.sqrt ((naOver a b : ℚ) : ℝ) := Real.sqrt_pos.mpr hna'
      have hsb : 0 < Real.sqrt ((nbOver a b : ℚ) : ℝ) := Real.sqrt_pos.mpr hnb'
      have hdot : 0 ≤ ((dotOver a b : ℚ) : ℝ) := by
        rw [dotOver_cast]
        refine Finset.sum_nonneg (fun k _ => mul_nonneg ?_ ?_)
        · exact_mod_cast svVal_nonneg ha k
        · exact_mod_cast svVal_nonneg hb k
      refine ⟨div_nonneg hdot (le_of_lt (mul_pos hsa hsb)), ?_⟩
      rw [div_le_one (mul_pos hsa hsb)]
      calc ((dotOver a b : ℚ) : ℝ)
          = ∑ k ∈ (unionKeys a b).toFinset, (svVal a k : ℝ) * (svVal b k : ℝ) :=
            dotOver_cast a b
        _ ≤ Real.sqrt (∑ k ∈ (unionKeys a b).toFinset, (svVal a k : ℝ) ^ 2) *
              Real.sqrt (∑ k ∈ (unionKeys a b).toFinset, (svVal b k : ℝ) ^ 2) :=
            Real.sum_mul_le_sqrt_mul_sqrt _ _ _
        _ = Real.sqrt ((naOver a b : ℚ) : ℝ) * Real.sqrt ((nbOver a b : ℚ) : ℝ) := by
            rw [← naOver_cast, ← nbOver_cast]
  · intro h
    unfold cosine
    rw [if_pos h]
  · intro hdisj
    have hdot : dotOver a b = 0 := by
      unfold dotOver
      refine Finset.sum_eq_zero (fun k hk => ?_)
      have hk1 : k ∈ unionKeys a b := List.mem_toFinset.mp hk
      have hk2 : k ∈ svKeys a ++ svKeys b := mem_dedupFirst.mp hk1
      rcases List.mem_append.mp hk2 with hka | hkb
      · rw [svVal_eq_zero_of_not_mem (hdisj k hka), mul_zero]
      · by_cases hka2 : k ∈ svKeys a
        · exact absurd hkb (hdisj k hka2)
        · rw [svVal_eq_zero_of_not_mem hka2, zero_mul]
    unfold cosine
    split_ifs with h
    · rfl
    · rw [hdot]
      simp
  · unfold cosine
    rw [if_pos]
    left
    simp [naOver, unionKeys, svKeys, dedupFirst, dedupFirstAux]

/-- Concrete instantiation of `cosine_spec`. -/
theorem cosine_spec_witness :
    (0 ≤ cosine [("js", 1)] [("js", 2)] ∧ cosine [("js", 1)] [("js", 2)] ≤ 1) ∧
    cosine [("js", 1)] [("css", 1)] = 0 :=
  ⟨(cosine_spec [("js", 1)] [("js", 2)]).1 (by decide) (by decide),
   (cosine_spec [("js", 1)] [("css", 1)]).2.2.1 (by decide)⟩

/-- Claim C6: for all cosine and overlap inputs the fit score is
`round(100 * (0.6*cosine + 0.4*overlap))` clamped to `[0, 100]` (an
integer by type), with `formatFitScore 1 1 = 100` and
`formatFitScore 0 0 = 0`. -/
theorem formatFitScore_spec (c o : ℝ) :
    (0 ≤ formatFitScore c o ∧ formatFitScore c o ≤ 100) ∧
    formatFitScore c o = max 0 (min 100 (jsRound ((0.6 * c + 0.4 * o) * 100))) ∧
    formatFitScore 1 1 = 100 ∧ formatFitScore 0 0 = 0 := by
  refine ⟨⟨le_max_left _ _, max_le (by norm_num) (min_le_left _ _)⟩, rfl, ?_, ?_⟩
  · unfold formatFitScore jsRound
    have h1 : ((0.6 * (1 : ℝ) + 0.4 * 1) * 100 + 1 / 2) = 201 / 2 := by norm_num
    rw [h1]
    have h2 : ⌊(201 / 2 : ℝ)⌋ = (100 : ℤ) := by
      rw [Int.floor_eq_iff]
      constructor <;> norm_num
    rw [h2]
    norm_num
  · unfold formatFitScore jsRound
    have h1 : ((0.6 * (0 : ℝ) + 0.4 * 0) * 100 + 1 / 2) = 1 / 2 := by norm_num
    rw [h1]
    have h2 : ⌊(1 / 2 : ℝ)⌋ = (0 : ℤ) := by
      rw [Int.floor_eq_iff]
      constructor <;> norm_num
    rw [h2]
    norm_num

/-- Claim C7: the overlap ratio is the number of distinct role skills
present in the user's skill set divided by the number of distinct role
skills (the denominator is the role's count); it is `0` for a role with no
skills, `1` for a role with skills that are all covered by the user, and
always lies in `[0, 1]`. -/
theorem overlapRatio_spec (userSkills : List String) (role : RoleDef) :
    (0 ≤ overlapRatioFn userSkills role ∧ overlapRatioFn userSkills role ≤ 1) ∧
    (role.skills = [] → overlapRatioFn userSkills role = 0) ∧
    ((role.skills ≠ [] ∧ ∀ sk ∈ role.skills,
        jsTrim (jsToLower sk.name) ∈ userSkills.map (fun s => jsTrim (jsToLower s))) →
      overlapRatioFn userSkills role = 1) ∧
    (role.skills ≠ [] →
      overlapRatioFn userSkills role =
        ((dedupFirst (role.skills.map (fun sk => jsTrim (jsToLower sk.name)))).countP
            (fun s =>
              (dedupFirst (userSkills.map (fun s2 => jsTrim (jsToLower s2)))).contains s) : ℚ) /
          ((dedupFirst (role.skills.map (fun sk => jsTrim (jsToLower sk.name)))).length : ℚ)) := by
  have hlen_of_ne : role.skills ≠ [] →
      (dedupFirst (role.skills.map (fun sk => jsTrim (jsToLower sk.name)))).length ≠ 0 := by
    intro hne
    cases hr : role.skills with
    | nil => exact absurd hr hne
    | cons a l =>
      rw [List.map_cons, dedupFirst_cons]
      simp
  refine ⟨⟨?_, ?_⟩, ?_, ?_, ?_⟩
  · simp only [overlapRatioFn]
    split_ifs with h
    · norm_num
    · positivity
  · simp only [overlapRatioFn]
    split_ifs with h
    · norm_num
    · have hpos : 0 < (dedupFirst (role.skills.map (fun sk => jsTrim (jsToLower sk.name)))).length :=
        Nat.pos_of_ne_zero h
      rw [div_le_one (by exact_mod_cast hpos)]
      exact_mod_cast List.countP_le_length _
  · intro hempty
    have h0 : (dedupFirst (role.skills.map (fun sk => jsTrim (jsToLower sk.name)))).length = 0 := by
      rw [hempty]
      rfl
    simp only [overlapRatioFn]
    rw [if_pos h0]
  · rintro ⟨hne, hcov⟩
    have hlen := hlen_of_ne hne
    simp only [overlapRatioFn]
    rw [if_neg hlen]
    have hcount : (dedupFirst (role.skills.map (fun sk => jsTrim (jsToLower sk.name)))).countP
        (fun s => (dedupFirst (userSkills.map (fun s2 => jsTrim (jsToLower s2)))).contains s) =
        (dedupFirst (role.skills.map (fun sk => jsTrim (jsToLower sk.name)))).length := by
      rw [List.countP_eq_length]
      intro s hsmem
      have hs2 : s ∈ role.skills.map (fun sk => jsTrim (jsToLower sk.name)) :=
        mem_dedupFirst.mp hsmem
      obtain ⟨sk, hskmem, rfl⟩ := List.mem_map.mp hs2
      have hmem2 : jsTrim (jsToLower sk.name) ∈
          dedupFirst (userSkills.map (fun s2 => jsTrim (jsToLower s2))) :=
        mem_dedupFirst.mpr (hcov sk hskmem)
      simpa using hmem2
    rw [hcount, div_self (by exact_mod_cast hlen)]
  · intro hne
    simp only [overlapRatioFn]
    rw [if_neg (hlen_of_ne hne)]

/-- Concrete instantiation of `overlapRatio_spec`: a fully covered
single-skill role yields ratio 1, and the empty role yields 0. -/
theorem overlapRatio_spec_witness :
    overlapRatioFn ["sql", "html"] sqlRole = 1 ∧
    overlapRatioFn ["sql", "html"] { sqlRole with skills := [] } = 0 :=
  ⟨(overlapRatio_spec ["sql", "html"] sqlRole).2.2.1 ⟨by decide, by decide⟩,
   (overlapRatio_spec ["sql", "html"] { sqlRole with skills := [] }).2.1 (by decide)⟩

theorem jsData_append (s t : String) : (s ++ t).data = s.data ++ t.data := rfl

theorem jsTrim_append_ne_zero {s : String} (t : String) {c : Char} (hc : c ∈ s.data)
    (hw : jsWS c = false) : (jsTrim (s ++ t)).length ≠ 0 := by
  apply jsTrim_length_ne_zero (c := c) _ hw
  rw [jsData_append]
  exact List.mem_append_left _ hc

theorem exists_four {α : Type} {l : List α} (h : l.length = 4) :
    ∃ a b c d, l = [a, b, c, d] := by
  rcases l with _ | ⟨a, l⟩
  · simp at h
  rcases l with _ | ⟨b, l⟩
  · simp at h
  rcases l with _ | ⟨c, l⟩
  · simp at h
  rcases l with _ | ⟨d, l⟩
  · simp at h
  rcases l with _ | ⟨e, l⟩
  · exact ⟨a, b, c, d, rfl⟩
  · simp [List.length_cons] at h

/-- Claim C10: profiles agreeing on the documented fields sanitize
identically — the sensitive attributes `gender`, `caste`, `religion`,
`address`, `collegeTier` are discarded — and hence the scoring and ranking
pipeline produces identical scored roles for them. -/
theorem sanitizeProfile_ignores_sensitive (p q : RawProfile)
    (h1 : p.name = q.name) (h2 : p.education = q.education) (h3 : p.skills = q.skills)
    (h4 : p.interests = q.interests) (h5 : p.weeklyTime = q.weeklyTime)
    (h6 : p.budget = q.budget) (h7 : p.language = q.language) :
    sanitizeProfile p = sanitizeProfile q ∧
    ∀ catalog : List RoleDef,
      calculateTop3Roles (sanitizeProfile p) catalog =
        calculateTop3Roles (sanitizeProfile q) catalog := by
  have hs : sanitizeProfile p = sanitizeProfile q := by
    unfold sanitizeProfile
    rw [h1, h2, h3, h4, h5, h6, h7]
  exact ⟨hs, fun catalog => by rw [hs]⟩

/-- Concrete instantiation of `sanitizeProfile_ignores_sensitive`: two
profiles differing exactly in the sensitive attributes. -/
theorem sanitizeProfile_ignores_sensitive_witness :
    sanitizeProfile exRawProfile = sanitizeProfile exRawProfileSensitive ∧
    calculateTop3Roles (sanitizeProfile exRawProfile) exCatalog =
      calculateTop3Roles (sanitizeProfile exRawProfileSensitive) exCatalog :=
  ⟨(sanitizeProfile_ignores_sensitive exRawProfile exRawProfileSensitive
      rfl rfl rfl rfl rfl rfl rfl).1,
   (sanitizeProfile_ignores_sensitive exRawProfile exRawProfileSensitive
      rfl rfl rfl rfl rfl rfl rfl).2 exCatalog⟩

theorem validateWeek_iff (w : WeekPlan) :
    validateWeek w = true ↔
      ((1 ≤ w.week ∧ w.week ≤ 4) ∧
       (w.topics ≠ [] ∧ ∀ t ∈ w.topics, (jsTrim t).length ≠ 0) ∧
       (w.practice ≠ [] ∧ ∀ t ∈ w.practice, (jsTrim t).length ≠ 0) ∧
       (jsTrim w.assessment).length ≠ 0 ∧ (jsTrim w.project).length ≠ 0) := by
  unfold validateWeek
  simp only [Bool.and_eq_true, decide_eq_true_eq, Bool.not_eq_true', decide_eq_false_iff_not,
    List.isEmpty_eq_false, List.all_eq_true, ne_eq]
  tauto

theorem validateLearningPlan_iff (p : Plan) :
    validateLearningPlan p = true ↔
      (p.weeks.length = 4 ∧ ∀ w ∈ p.weeks, validateWeek w = true) := by
  unfold validateLearningPlan
  simp only [Bool.and_eq_true, decide_eq_true_eq, List.all_eq_true]

theorem chosenTopics_cases (roleTitle : String) :
    chosenTopics roleTitle = genericTopics ∨
      ∃ kv ∈ baseTopics, chosenTopics roleTitle = kv.2 := by
  unfold chosenTopics
  cases hsel : selectedRoleKey roleTitle with
  | none => left; rfl
  | some k =>
    cases hf : baseTopics.find? (fun kv => kv.1 == k) with
    | none => left; simp [hf]
    | some kv =>
      right
      exact ⟨kv, List.mem_of_find?_eq_some hf, by simp [hf]⟩

theorem chosenTopics_ok (roleTitle : String) :
    (chosenTopics roleTitle).length = 4 ∧
    ∀ e ∈ chosenTopics roleTitle, (jsTrim e.1).length ≠ 0 ∧ (jsTrim e.2).length ≠ 0 := by
  have hall : ∀ kv2 ∈ baseTopics, kv2.2.length = 4 ∧
      ∀ e ∈ kv2.2, (jsTrim e.1).length ≠ 0 ∧ (jsTrim e.2).length ≠ 0 := by decide
  rcases chosenTopics_cases roleTitle with h | ⟨kv, hkv, h⟩
  · rw [h]
    exact ⟨by decide, by decide⟩
  · rw [h]
    exact hall kv hkv

/-- Claim C4: for every role title and every gap-skill list the
deterministic fallback generator `deterministicPlanForRole` returns a plan
with exactly 4 weeks numbered 1, 2, 3, 4 in order, one non-blank topic and
one non-blank practice item per week, and non-blank assessment and project
strings — it passes `validateLearningPlan` by construction (and, being a
total function, never throws). -/
theorem deterministicPlanForRole_spec (roleTitle : String) (gapSkills : List String)
    (profile : UserProfile) :
    (deterministicPlanForRole roleTitle gapSkills profile).weeks.map (fun w => w.week) =
      [1, 2, 3, 4] ∧
    validateLearningPlan (deterministicPlanForRole roleTitle gapSkills profile) = true ∧
    ∀ w ∈ (deterministicPlanForRole roleTitle gapSkills profile).weeks,
      w.topics.length = 1 ∧ w.practice.length = 1 := by
  obtain ⟨hlen, hentries⟩ := chosenTopics_ok roleTitle
  obtain ⟨e1, e2, e3, e4, htbl⟩ := exists_four hlen
  have he1 := hentries e1 (by rw [htbl]; simp)
  have he2 := hentries e2 (by rw [htbl]; simp)
  have he3 := hentries e3 (by rw [htbl]; simp)
  have he4 := hentries e4 (by rw [htbl]; simp)
  have hweeks : (deterministicPlanForRole roleTitle gapSkills profile).weeks =
      [{ week := 1, topics := [e1.1], practice := [e1.2],
         assessment := "Short checklist and 5 quick quiz questions for week " ++ toString 1,
         project := "Mini project for week " ++ toString 1 },
       { week := 2, topics := [e2.1], practice := [e2.2],
         assessment := "Short checklist and 5 quick quiz questions for week " ++ toString 2,
         project := "Mini project for week " ++ toString 2 },
       { week := 3, topics := [e3.1], practice := [e3.2],
         assessment := "Short checklist and 5 quick quiz questions for week " ++ toString 3,
         project := "Mini project for week " ++ toString 3 },
       { week := 4, topics := [e4.1], practice := [e4.2],
         assessment := "Short checklist and 5 quick quiz questions for week " ++ toString 4,
         project := "Capstone project for " ++ roleTitle }] := by
    unfold deterministicPlanForRole
    rw [htbl]
    rfl
  refine ⟨?_, ?_, ?_⟩
  · rw [hweeks]
    rfl
  · rw [validateLearningPlan_iff]
    refine ⟨by rw [hweeks]; rfl, ?_⟩
    rw [hweeks]
    intro w hw
    simp only [List.mem_cons, List.not_mem_nil, or_false] at hw
    rcases hw with rfl | rfl | rfl | rfl
    · refine (validateWeek_iff _).mpr ⟨⟨by norm_num, by norm_num⟩, ⟨by simp, ?_⟩,
        ⟨by simp, ?_⟩, ?_, ?_⟩
      · intro t ht
        simp only [List.mem_singleton] at ht
        exact ht ▸ he1.1
      · intro t ht
        simp only [List.mem_singleton] at ht
        exact ht ▸ he1.2
      · show (jsTrim ("Short checklist and 5 quick quiz questions for week " ++
          toString 1)).length ≠ 0
        decide
      · show (jsTrim ("Mini project for week " ++ toString 1)).length ≠ 0
        decide
    · refine (validateWeek_iff _).mpr ⟨⟨by norm_num, by norm_num⟩, ⟨by simp, ?_⟩,
        ⟨by simp, ?_⟩, ?_, ?_⟩
      · intro t ht
        simp only [List.mem_singleton] at ht
        exact ht ▸ he2.1
      · intro t ht
        simp only [List.mem_singleton] at ht
        exact ht ▸ he2.2
      · show (jsTrim ("Short checklist and 5 quick quiz questions for week " ++
          toString 2)).length ≠ 0
        decide
      · show (jsTrim ("Mini project for week " ++ toString 2)).length ≠ 0
        decide
    · refine (validateWeek_iff _).mpr ⟨⟨by norm_num, by norm_num⟩, ⟨by simp, ?_⟩,
        ⟨by simp, ?_⟩, ?_, ?_⟩
      · intro t ht
        simp only [List.mem_singleton] at ht
        exact ht ▸ he3.1
      · intro t ht
        simp only [List.mem_singleton] at ht
        exact ht ▸ he3.2
      · show (jsTrim ("Short checklist and 5 quick quiz questions for week " ++
          toString 3)).length ≠ 0
        decide
      · show (jsTrim ("Mini project for week " ++ toString 3)).length ≠ 0
        decide
    · refine (validateWeek_iff _).mpr ⟨⟨by norm_num, by norm_num⟩, ⟨by simp, ?_⟩,
        ⟨by simp, ?_⟩, ?_, ?_⟩
      · intro t ht
        simp only [List.mem_singleton] at ht
        exact ht ▸ he4.1
      · intro t ht
        simp only [List.mem_singleton] at ht
        exact ht ▸ he4.2
      · show (jsTrim ("Short checklist and 5 quick quiz questions for week " ++
          toString 4)).length ≠ 0
        decide
      · exact jsTrim_append_ne_zero roleTitle (c := 'C') (by decide) (by decide)
  · rw [hweeks]
    intro w hw
    simp only [List.mem_cons, List.not_mem_nil, or_false] at hw
    rcases hw with rfl | rfl | rfl | rfl <;> exact ⟨rfl, rfl⟩

/-- Concrete instantiation of `deterministicPlanForRole_spec`. -/
theorem deterministicPlanForRole_spec_witness :
    validateLearningPlan (deterministicPlanForRole "Frontend Developer" [] exProfile) = true :=
  (deterministicPlanForRole_spec "Frontend Developer" [] exProfile).2.1

/-- Claim C9: for the role title "Unknown Exotic Role" no table key
matches, so the fallback plan is built from the generic template
(weeks 1-3 "Core concept N" / "Hands-on practice N", week 4 the template's
capstone entry), and week 4's project contains "capstone"
case-insensitively. -/
theorem fallbackPlan_unknown_role :
    chosenTopics "Unknown Exotic Role" = genericTopics ∧
    deterministicPlanForRole "Unknown Exotic Role" [] exProfile =
      { weeks :=
        [{ week := 1, topics := ["Core concept 1"], practice := ["Hands-on practice 1"],
           assessment := "Short checklist and 5 quick quiz questions for week 1",
           project := "Mini project for week 1" },
         { week := 2, topics := ["Core concept 2"], practice := ["Hands-on practice 2"],
           assessment := "Short checklist and 5 quick quiz questions for week 2",
           project := "Mini project for week 2" },
         { week := 3, topics := ["Core concept 3"], practice := ["Hands-on practice 3"],
           assessment := "Short checklist and 5 quick quiz questions for week 3",
           project := "Mini project for week 3" },
         { week := 4, topics := ["Capstone project"], practice := ["Final deliverable"],
           assessment := "Short checklist and 5 quick quiz questions for week 4",
           project := "Capstone project for Unknown Exotic Role" }] } ∧
    jsIncludes
      (jsToLower
        (((deterministicPlanForRole "Unknown Exotic Role" [] exProfile).weeks.map
          (fun w => w.project)).getD 3 ""))
      "capstone" = true := by
  refine ⟨by decide, by decide, by decide⟩

/-- Claim C3 (amended): both plan validators only range-check week
numbers — `validateLearningPlan` accepts exactly the 4-entry plans whose
weeks each have `week ∈ [1,4]` and well-formed fields (duplicate week
numbers are accepted), and the zod `PlanSchema` likewise only guarantees
4 entries with each `week ∈ [1,4]`; the exact week sequence `[1,2,3,4]` is
guaranteed on the deterministic fallback path. -/
theorem validateLearningPlan_spec (p : Plan) :
    (validateLearningPlan p = true ↔
      (p.weeks.length = 4 ∧ ∀ w ∈ p.weeks,
        (1 ≤ w.week ∧ w.week ≤ 4) ∧
        (w.topics ≠ [] ∧ ∀ t ∈ w.topics, (jsTrim t).length ≠ 0) ∧
        (w.practice ≠ [] ∧ ∀ t ∈ w.practice, (jsTrim t).length ≠ 0) ∧
        (jsTrim w.assessment).length ≠ 0 ∧ (jsTrim w.project).length ≠ 0)) ∧
    (planSchemaValid p = true →
      p.weeks.length = 4 ∧ ∀ w ∈ p.weeks, 1 ≤ w.week ∧ w.week ≤ 4) ∧
    ∀ (profile : UserProfile) (gaps : List String) (title : String),
      (deterministicFallbackPlan profile gaps title).weeks.map (fun w => w.week) =
        [1, 2, 3, 4] := by
  refine ⟨?_, ?_, ?_⟩
  · rw [validateLearningPlan_iff]
    constructor
    · rintro ⟨h4, hall⟩
      exact ⟨h4, fun w hw => (validateWeek_iff w).mp (hall w hw)⟩
    · rintro ⟨h4, hall⟩
      exact ⟨h4, fun w hw => (validateWeek_iff w).mpr (hall w hw)⟩
  · intro hp
    unfold planSchemaValid at hp
    simp only [Bool.and_eq_true, decide_eq_true_eq, List.all_eq_true] at hp
    refine ⟨hp.1, fun w hw => ?_⟩
    have hweek := hp.2 w hw
    unfold weekSchemaValid at hweek
    simp only [Bool.and_eq_true, decide_eq_true_eq] at hweek
    tauto
  · intro profile gaps title
    unfold deterministicFallbackPlan
    rfl

/-- Claim C3 counterexample: a plan whose week numbers are 1, 1, 2, 3
passes both `validateLearningPlan` and the zod `PlanSchema`, although week
1 repeats and week 4 is missing — the validators range-check only, they do
not test the week numbers as a set. -/
theorem validator_accepts_duplicate_weeks :
    validateLearningPlan dupWeekPlan = true ∧
    planSchemaValid dupWeekPlan = true ∧
    (dupWeekPlan.weeks.map (fun w => w.week)).count 1 = 2 ∧
    (4 : ℤ) ∉ dupWeekPlan.weeks.map (fun w => w.week) := by
  refine ⟨by decide, by decide, by decide, by decide⟩

/-- Concrete instantiation of `validateLearningPlan_spec`: the
deterministic fallback plan for a concrete input carries the exact week
sequence 1, 2, 3, 4. -/
theorem validateLearningPlan_spec_witness :
    (deterministicFallbackPlan exProfile ["react"] "Frontend Developer").weeks.map
      (fun w => w.week) = [1, 2, 3, 4] :=
  (validateLearningPlan_spec { weeks := [] }).2.2 exProfile ["react"] "Frontend Developer"

theorem jsLength_append (s t : String) : (s ++ t).length = s.length + t.length := by
  show (s ++ t).data.length = s.data.length + t.data.length
  rw [jsData_append, List.length_append]

theorem weekSchemaValid_iff (w : WeekPlan) :
    weekSchemaValid w = true ↔
      ((1 ≤ w.week ∧ w.week ≤ 4) ∧ (1 ≤ w.topics.length ∧ w.topics.length ≤ 10) ∧
       (1 ≤ w.practice.length ∧ w.practice.length ≤ 8) ∧
       (3 ≤ w.assessment.length ∧ w.assessment.length ≤ 200) ∧
       (3 ≤ w.project.length ∧ w.project.length ≤ 200)) := by
  unfold weekSchemaValid
  simp only [Bool.and_eq_true, decide_eq_true_eq]
  tauto

theorem planSchemaValid_iff (p : Plan) :
    planSchemaValid p = true ↔
      (p.weeks.length = 4 ∧ ∀ w ∈ p.weeks, weekSchemaValid w = true) := by
  unfold planSchemaValid
  simp only [Bool.and_eq_true, decide_eq_true_eq, List.all_eq_true]

theorem deterministicFallbackPlan_schemaValid (profile : UserProfile) (gaps : List String)
    (title : String) (h : title.length ≤ 160) :
    planSchemaValid (deterministicFallbackPlan profile gaps title) = true := by
  rw [planSchemaValid_iff]
  constructor
  · unfold deterministicFallbackPlan
    rfl
  · intro w hw
    unfold deterministicFallbackPlan at hw
    have hrange : List.range 4 = [0, 1, 2, 3] := rfl
    rw [hrange] at hw
    simp only [List.map_cons, List.map_nil, List.mem_cons, List.not_mem_nil, or_false] at hw
    have hcap : ("Capstone: Build a small " ++ title ++ " portfolio piece").length =
        40 + title.length := by
      rw [jsLength_append, jsLength_append]
      have h1 : ("Capstone: Build a small " : String).length = 24 := by decide
      have h2 : (" portfolio piece" : String).length = 16 := by decide
      rw [h1, h2]
      omega
    rcases hw with rfl | rfl | rfl | rfl
    · refine (weekSchemaValid_iff _).mpr ⟨⟨by norm_num, by norm_num⟩, ⟨by simp, by simp⟩,
        ⟨by simp, by simp⟩, ?_, ?_⟩
      · show 3 ≤ ("Self-check with quizzes or coding challenges" : String).length ∧
          ("Self-check with quizzes or coding challenges" : String).length ≤ 200
        decide
      · show 3 ≤ ("Mini project applying weekly topics" : String).length ∧
          ("Mini project applying weekly topics" : String).length ≤ 200
        decide
    · refine (weekSchemaValid_iff _).mpr ⟨⟨by norm_num, by norm_num⟩, ⟨by simp, by simp⟩,
        ⟨by simp, by simp⟩, ?_, ?_⟩
      · show 3 ≤ ("Self-check with quizzes or coding challenges" : String).length ∧
          ("Self-check with quizzes or coding challenges" : String).length ≤ 200
        decide
      · show 3 ≤ ("Mini project applying weekly topics" : String).length ∧
          ("Mini project applying weekly topics" : String).length ≤ 200
        decide
    · refine (weekSchemaValid_iff _).mpr ⟨⟨by norm_num, by norm_num⟩, ⟨by simp, by simp⟩,
        ⟨by simp, by simp⟩, ?_, ?_⟩
      · show 3 ≤ ("Self-check with quizzes or coding challenges" : String).length ∧
          ("Self-check with quizzes or coding challenges" : String).length ≤ 200
        decide
      · show 3 ≤ ("Mini project applying weekly topics" : String).length ∧
          ("Mini project applying weekly topics" : String).length ≤ 200
        decide
    · refine (weekSchemaValid_iff _).mpr ⟨⟨by norm_num, by norm_num⟩, ⟨by simp, by simp⟩,
        ⟨by simp, by simp⟩, ?_, ?_⟩
      · show 3 ≤ ("Self-check with quizzes or coding challenges" : String).length ∧
          ("Self-check with quizzes or coding challenges" : String).length ≤ 200
        decide
      · show 3 ≤ ("Capstone: Build a small " ++ title ++ " portfolio piece").length ∧
          ("Capstone: Build a small " ++ title ++ " portfolio piece").length ≤ 200
        rw [hcap]
        omega

/-- Claim C2 (amended): in `generateLearningPlan` the stricter retry is
made exactly when the first response fails JSON parsing; a first backend
error, or a first response that parses but fails schema validation, goes
directly to the deterministic fallback without a retry.  In every case the
returned plan is schema-valid (the validated candidate or the fallback,
for role titles of at most 160 characters), so the orchestrator always
terminates accepted. -/
theorem generateLearningPlan_spec (first second : GenAttempt) (profile : UserProfile)
    (gaps : List String) (title : String) (h : title.length ≤ 160) :
    planSchemaValid (generateLearningPlan first second profile gaps title).1 = true ∧
    ((generateLearningPlan first second profile gaps title).2 = 2 ↔
      first = GenAttempt.parseFail) ∧
    (∀ p, first = GenAttempt.parsed p → planSchemaValid p = false →
      (generateLearningPlan first second profile gaps title).1 =
        deterministicFallbackPlan profile gaps title) := by
  cases first with
  | backendError =>
    refine ⟨deterministicFallbackPlan_schemaValid profile gaps title h,
      by simp [generateLearningPlan], ?_⟩
    intro p hp hv
    simp at hp
  | parseFail =>
    cases second with
    | backendError =>
      refine ⟨deterministicFallbackPlan_schemaValid profile gaps title h,
        by simp [generateLearningPlan], ?_⟩
      intro p hp hv
      simp at hp
    | parseFail =>
      refine ⟨deterministicFallbackPlan_schemaValid profile gaps title h,
        by simp [generateLearningPlan], ?_⟩
      intro p hp hv
      simp at hp
    | parsed p =>
      by_cases hv : planSchemaValid p = true
      · refine ⟨?_, by simp [generateLearningPlan, hv], ?_⟩
        · simp [generateLearningPlan, hv]
        · intro q hq hqv
          simp at hq
      · refine ⟨?_, ?_, ?_⟩
        · simp only [generateLearningPlan, if_neg hv]
          exact deterministicFallbackPlan_schemaValid profile gaps title h
        · simp [generateLearningPlan, if_neg hv]
        · intro q hq hqv
          simp at hq
  | parsed p =>
    by_cases hv : planSchemaValid p = true
    · refine ⟨by simp [generateLearningPlan, hv], by simp [generateLearningPlan, hv], ?_⟩
      intro q hq hqv
      have hpq : p = q := by simpa using hq
      rw [← hpq] at hqv
      rw [hv] at hqv
      simp at hqv
    · refine ⟨?_, ?_, ?_⟩
      · simp only [generateLearningPlan, if_neg hv]
        exact deterministicFallbackPlan_schemaValid profile gaps title h
      · simp [generateLearningPlan, if_neg hv]
      · intro q hq hqv
        simp only [generateLearningPlan, if_neg hv]

/-- Claim C2 counterexample: a first response that parses but fails schema
validation (an empty `weeks` array) triggers no stricter retry — exactly
one backend call is made and the deterministic fallback is returned
directly, where the claim mandates a second, stricter attempt. -/
theorem generateLearningPlan_no_retry_on_invalid :
    planSchemaValid emptyPlan = false ∧
    (generateLearningPlan (GenAttempt.parsed emptyPlan) (GenAttempt.parsed emptyPlan)
      exProfile [] "Frontend Developer").2 = 1 ∧
    (generateLearningPlan (GenAttempt.parsed emptyPlan) (GenAttempt.parsed emptyPlan)
      exProfile [] "Frontend Developer").1 =
      deterministicFallbackPlan exProfile [] "Frontend Developer" := by
  refine ⟨by decide, by decide, by decide⟩

/-- Concrete instantiation of `generateLearningPlan_spec`. -/
theorem generateLearningPlan_spec_witness :
    planSchemaValid (generateLearningPlan GenAttempt.parseFail GenAttempt.backendError
      exProfile ["react"] "Frontend Developer").1 = true :=
  (generateLearningPlan_spec GenAttempt.parseFail GenAttempt.backendError
    exProfile ["react"] "Frontend Developer" (by decide)).1

theorem frontend_unionKeys_eq :
    unionKeys (buildUserVector ["JavaScript", "HTML", "CSS"]) (buildRoleVector frontendRole) =
      ["javascript", "html", "css", "react", "typescript"] := by
  decide

theorem frontend_ratio_eq :
    overlapRatioFn ["JavaScript", "HTML", "CSS"] frontendRole = 3 / 5 := by
  have hnum : (dedupFirst (frontendRole.skills.map (fun s => jsTrim (jsToLower s.name)))).countP
      (fun s =>
        (dedupFirst ((["JavaScript", "HTML", "CSS"] : List String).map
          (fun s2 => jsTrim (jsToLower s2)))).contains s) = 3 := by decide
  have hden : (dedupFirst (frontendRole.skills.map
      (fun s => jsTrim (jsToLower s.name)))).length = 5 := by decide
  simp only [overlapRatioFn]
  rw [if_neg (by rw [hden]; norm_num), hnum, hden]
  norm_num

theorem frontend_sums_eq :
    naOver (buildUserVector ["JavaScript", "HTML", "CSS"]) (buildRoleVector frontendRole) = 3 ∧
    nbOver (buildUserVector ["JavaScript", "HTML", "CSS"]) (buildRoleVector frontendRole) = 5 ∧
    dotOver (buildUserVector ["JavaScript", "HTML", "CSS"]) (buildRoleVector frontendRole) = 3 := by
  have hnodup : (["javascript", "html", "css", "react", "typescript"] : List String).Nodup := by
    decide
  have hu1 : svVal (buildUserVector ["JavaScript", "HTML", "CSS"]) "javascript" = 1 := by decide
  have hu2 : svVal (buildUserVector ["JavaScript", "HTML", "CSS"]) "html" = 1 := by decide
  have hu3 : svVal (buildUserVector ["JavaScript", "HTML", "CSS"]) "css" = 1 := by decide
  have hu4 : svVal (buildUserVector ["JavaScript", "HTML", "CSS"]) "react" = 0 := by decide
  have hu5 : svVal (buildUserVector ["JavaScript", "HTML", "CSS"]) "typescript" = 0 := by decide
  have hr1 : svVal (buildRoleVector frontendRole) "javascript" = 1 := by decide
  have hr2 : svVal (buildRoleVector frontendRole) "html" = 1 := by decide
  have hr3 : svVal (buildRoleVector frontendRole) "css" = 1 := by decide
  have hr4 : svVal (buildRoleVector frontendRole) "react" = 1 := by decide
  have hr5 : svVal (buildRoleVector frontendRole) "typescript" = 1 := by decide
  refine ⟨?_, ?_, ?_⟩
  · unfold naOver
    rw [frontend_unionKeys_eq, List.sum_toFinset _ hnodup]
    simp only [List.map_cons, List.map_nil, List.sum_cons, List.sum_nil,
      hu1, hu2, hu3, hu4, hu5]
    norm_num
  · unfold nbOver
    rw [frontend_unionKeys_eq, List.sum_toFinset _ hnodup]
    simp only [List.map_cons, List.map_nil, List.sum_cons, List.sum_nil,
      hr1, hr2, hr3, hr4, hr5]
    norm_num
  · unfold dotOver
    rw [frontend_unionKeys_eq, List.sum_toFinset _ hnodup]
    simp only [List.map_cons, List.map_nil, List.sum_cons, List.sum_nil,
      hu1, hu2, hu3, hu4, hu5, hr1, hr2, hr3, hr4, hr5]
    norm_num

theorem frontend_cosine_eq :
    cosine (buildUserVector ["JavaScript", "HTML", "CSS"]) (buildRoleVector frontendRole) =
      Real.sqrt 15 / 5 := by
  obtain ⟨hna, hnb, hdot⟩ := frontend_sums_eq
  unfold cosine
  rw [hna, hnb, hdot]
  rw [if_neg (by norm_num)]
  have hc3 : (((3 : ℚ) : ℝ)) = (3 : ℝ) := by norm_num
  have hc5 : (((5 : ℚ) : ℝ)) = (5 : ℝ) := by norm_num
  rw [hc3, hc5]
  rw [← Real.sqrt_mul (by norm_num : (0 : ℝ) ≤ 3) 5]
  rw [show (3 : ℝ) * 5 = 15 from by norm_num]
  have h15 : Real.sqrt 15 * Real.sqrt 15 = 15 := Real.mul_self_sqrt (by norm_num)
  have hne : Real.sqrt 15 ≠ 0 := by positivity
  rw [div_eq_div_iff hne (by norm_num : (5 : ℝ) ≠ 0), h15]
  norm_num

theorem frontend_score_eq :
    formatFitScore (Real.sqrt 15 / 5) (((3 : ℚ) / 5 : ℚ) : ℝ) = 70 := by
  have hsq : Real.sqrt 15 * Real.sqrt 15 = 15 := Real.mul_self_sqrt (by norm_num)
  have hnn : 0 ≤ Real.sqrt 15 := Real.sqrt_nonneg 15
  have hlo : (45.5 : ℝ) ≤ 12 * Real.sqrt 15 := by nlinarith
  have hhi : 12 * Real.sqrt 15 < 46.5 := by nlinarith
  unfold formatFitScore jsRound
  have hcast : (((3 : ℚ) / 5 : ℚ) : ℝ) = (3 : ℝ) / 5 := by push_cast; ring
  rw [hcast]
  have harg : (0.6 * (Real.sqrt 15 / 5) + 0.4 * ((3 : ℝ) / 5)) * 100 + 1 / 2 =
      12 * Real.sqrt 15 + 24 + 1 / 2 := by ring
  rw [harg]
  have hfloor : ⌊12 * Real.sqrt 15 + 24 + 1 / 2⌋ = (70 : ℤ) := by
    rw [Int.floor_eq_iff]
    constructor
    · push_cast
      linarith
    · push_cast
      linarith
  rw [hfloor]
  norm_num

/-- Claim C5 (amended): for profile skills `["JavaScript","HTML","CSS"]`
scored against the "Frontend Developer" role, the pipeline yields
`overlapRatio = 3/5`, `overlapSkills = [JavaScript, HTML, CSS]`,
`gapSkills = [React, TypeScript]`, but `cosine = 3/sqrt 15 = sqrt 15 / 5 ≈
0.7746` (the user vector is a strict sub-vector, so the cosine is not 1)
and `fitScore = round(100*(0.6*(sqrt 15/5) + 0.4*0.6)) = 70`. -/
theorem frontendScenario_spec :
    overlapRatioFn ["JavaScript", "HTML", "CSS"] frontendRole = 3 / 5 ∧
    calculateSkillOverlap ["JavaScript", "HTML", "CSS"] frontendRole =
      (["JavaScript", "HTML", "CSS"], ["React", "TypeScript"]) ∧
    cosine (buildUserVector ["JavaScript", "HTML", "CSS"]) (buildRoleVector frontendRole) =
      Real.sqrt 15 / 5 ∧
    formatFitScore
      (cosine (buildUserVector ["JavaScript", "HTML", "CSS"]) (buildRoleVector frontendRole))
      ((overlapRatioFn ["JavaScript", "HTML", "CSS"] frontendRole : ℚ) : ℝ) = 70 := by
  refine ⟨frontend_ratio_eq, by decide, frontend_cosine_eq, ?_⟩
  rw [frontend_cosine_eq, frontend_ratio_eq]
  exact frontend_score_eq

/-- Claim C5 counterexample: in the concrete frontend scenario the cosine
is not `1.0` and the fit score is not `84` — the user vector being a
sub-vector of the role vector does not make the cosine 1. -/
theorem frontendScenario_counterexample :
    cosine (buildUserVector ["JavaScript", "HTML", "CSS"]) (buildRoleVector frontendRole) ≠ 1 ∧
    formatFitScore
      (cosine (buildUserVector ["JavaScript", "HTML", "CSS"]) (buildRoleVector frontendRole))
      ((overlapRatioFn ["JavaScript", "HTML", "CSS"] frontendRole : ℚ) : ℝ) ≠ 84 := by
  constructor
  · rw [frontend_cosine_eq]
    intro hone
    have hsq : Real.sqrt 15 * Real.sqrt 15 = 15 := Real.mul_self_sqrt (by norm_num)
    have h5 : Real.sqrt 15 = 5 := by
      field_simp at hone
      linarith
    rw [h5] at hsq
    norm_num at hsq
  · rw [frontend_cosine_eq, frontend_ratio_eq, frontend_score_eq]
    decide

theorem formatFitScore_bounds (c o : ℝ) :
    0 ≤ formatFitScore c o ∧ formatFitScore c o ≤ 100 :=
  ⟨le_max_left _ _, max_le (by norm_num) (min_le_left _ _)⟩

theorem joinComma_length_le (l : List String) (h3 : l.length ≤ 3)
    (hall : ∀ x ∈ l, x.length ≤ 100) : (joinComma l).length ≤ 304 := by
  have hcomma : (", " : String).length = 2 := by decide
  rcases l with _ | ⟨a, l⟩
  · simp [joinComma]
  rcases l with _ | ⟨b, l⟩
  · have ha := hall a (by simp)
    simp only [joinComma]
    omega
  rcases l with _ | ⟨c, l⟩
  · have ha := hall a (by simp)
    have hb := hall b (by simp)
    simp only [joinComma, jsLength_append, hcomma]
    omega
  rcases l with _ | ⟨d, l⟩
  · have ha := hall a (by simp)
    have hb := hall b (by simp)
    have hc := hall c (by simp)
    simp only [joinComma, jsLength_append, hcomma]
    omega
  · simp only [List.length_cons] at h3
    omega

theorem generateExplanation_none_length (ov gp : List String)
    (hov : ov.length ≤ 20) (hgp : ∀ x ∈ gp, x.length ≤ 100) :
    10 ≤ (generateExplanation none ov gp).length ∧
    (generateExplanation none ov gp).length ≤ 600 := by
  unfold generateExplanation
  have ha : ("This role fits your profile based on your " : String).length = 42 := by decide
  have hb : (" matching skills. Focus on learning " : String).length = 36 := by decide
  have hc2 : (" to excel in this career path." : String).length = 30 := by decide
  have hd : (toString ov.length).length ≤ 2 := by
    have hdall : ∀ n : ℕ, n < 21 → (toString n).length ≤ 2 := by decide
    exact hdall ov.length (by omega)
  have hj : (joinComma (gp.take 3)).length ≤ 304 := by
    refine joinComma_length_le _ ?_ (fun x hx => hgp x (List.mem_of_mem_take hx))
    simp [List.length_take]
  simp only [jsLength_append, ha, hb, hc2]
  omega

theorem calculateSkillOverlap_facts (userSkills : List String) (role : RoleDef) :
    (∀ x ∈ (calculateSkillOverlap userSkills role).1, ∃ sk ∈ role.skills, x = sk.name) ∧
    (∀ x ∈ (calculateSkillOverlap userSkills role).2, ∃ sk ∈ role.skills, x = sk.name) ∧
    (calculateSkillOverlap userSkills role).1.length ≤ 20 ∧
    (calculateSkillOverlap userSkills role).2.length ≤ 20 := by
  unfold calculateSkillOverlap
  refine ⟨?_, ?_, ?_, ?_⟩
  · intro x hx
    have hx2 := List.mem_of_mem_take hx
    obtain ⟨sk, hsk, rfl⟩ := List.mem_map.mp hx2
    exact ⟨sk, List.mem_of_mem_filter hsk, rfl⟩
  · intro x hx
    have hx2 := List.mem_of_mem_take hx
    obtain ⟨sk, hsk, rfl⟩ := List.mem_map.mp hx2
    exact ⟨sk, List.mem_of_mem_filter hsk, rfl⟩
  · exact List.length_take_le _ _
  · exact List.length_take_le _ _

theorem insertionSort_filter_stable (l : List ScoredRole) (s : ℤ) :
    (l.insertionSort scoreDescRel).filter (fun x => decide (x.score = s)) =
      l.filter (fun x => decide (x.score = s)) := by
  have hpw : (l.filter (fun x => decide (x.score = s))).Pairwise scoreDescRel := by
    refine List.pairwise_of_forall_mem_list (fun a ha b hb => ?_)
    have ha2 : a.score = s := by simpa using List.of_mem_filter ha
    have hb2 : b.score = s := by simpa using List.of_mem_filter hb
    unfold scoreDescRel
    rw [ha2, hb2]
  have hsub : List.Sublist (l.filter (fun x => decide (x.score = s)))
      (l.insertionSort scoreDescRel) :=
    List.sublist_insertionSort hpw (List.filter_sublist l)
  have hsub2 : List.Sublist (l.filter (fun x => decide (x.score = s)))
      ((l.insertionSort scoreDescRel).filter (fun x => decide (x.score = s))) := by
    have h1 := hsub.filter (fun x => decide (x.score = s))
    rwa [List.filter_filter, show ((fun x : ScoredRole => decide (x.score = s) &&
      decide (x.score = s))) = (fun x : ScoredRole => decide (x.score = s)) from
      funext (fun x => by cases hxs : decide (x.score = s) <;> simp [hxs])] at h1
  have hperm : List.Perm
      ((l.insertionSort scoreDescRel).filter (fun x => decide (x.score = s)))
      (l.filter (fun x => decide (x.score = s))) :=
    (List.perm_insertionSort scoreDescRel l).filter _
  exact (hsub2.eq_of_length hperm.length_eq.symm).symm

/-- Claim C1 counterexample: with a valid profile and a non-empty catalog
of exactly one role, `recommend` does not succeed with
`min(3, |catalog|) = 1` recommendations — the final response schema
demands exactly 3 items, so the request fails with a server error even
though the catalog is non-empty and the profile is valid. -/
theorem recommend_single_role_fails :
    userProfileValid exRawProfile = true ∧
    (recommendFallback [frontendRole] exRawProfile).isOk = false ∧
    recommendFallback [frontendRole] exRawProfile =
      RecommendResult.serverError "Generated recommendations are invalid. Please try again." := by
  refine ⟨by decide, rfl, rfl⟩

theorem buildRecommendation_fallback_fields (profile : UserProfile) (role : RoleDef) :
    buildRecommendation profile (fun _ => none)
      (fun _ => (GenAttempt.backendError, GenAttempt.backendError))
      (scoreRole profile role) =
    { roleId := role.roleId
      title := role.title
      fitScore := formatFitScore
        (cosine (buildUserVector profile.skills) (buildRoleVector role))
        ((overlapRatioFn profile.skills role : ℚ) : ℝ)
      why := generateExplanation none (calculateSkillOverlap profile.skills role).1
        (calculateSkillOverlap profile.skills role).2
      overlapSkills := (calculateSkillOverlap profile.skills role).1
      gapSkills := (calculateSkillOverlap profile.skills role).2
      plan := deterministicFallbackPlan profile
        (calculateSkillOverlap profile.skills role).2 role.title } := rfl

/-- Claim C1 (amended): the recommendation endpoint (modelled in the
degraded all-fallback regime with the API key configured) fails when the
profile is invalid, when the catalog is empty ("no roles available"),
and also when the catalog has fewer than 3 roles, because the response
schema demands exactly 3 items.  For a valid profile and a catalog of at
least 3 well-formed roles it succeeds with exactly
`3 = min(3, |catalog|)` recommendations, ranked descending by `fitScore`
with stable tie-break by catalog order, each carrying a schema-valid
4-week plan. -/
theorem recommend_contract (catalog : List RoleDef) (p : RawProfile)
    (hp : userProfileValid p = true)
    (hn : 3 ≤ catalog.length)
    (hmeta : ∀ r ∈ catalog,
      (1 ≤ r.roleId.length ∧ r.roleId.length ≤ 50) ∧
      (1 ≤ r.title.length ∧ r.title.length ≤ 100) ∧
      ∀ sk ∈ r.skills, sk.name.length ≤ 100) :
    ∃ recs,
      recommendFallback catalog p = RecommendResult.ok recs ∧
      recs.length = min 3 catalog.length ∧
      recs.Pairwise (fun a b => b.fitScore ≤ a.fitScore) ∧
      (∀ r ∈ recs, planSchemaValid r.plan = true) ∧
      recs = (((catalog.map (scoreRole (sanitizeProfile p))).insertionSort
          scoreDescRel).take 3).map
        (buildRecommendation (sanitizeProfile p) (fun _ => none)
          (fun _ => (GenAttempt.backendError, GenAttempt.backendError))) ∧
      (∀ s : ℤ,
        ((catalog.map (scoreRole (sanitizeProfile p))).insertionSort scoreDescRel).filter
            (fun x => decide (x.score = s)) =
          (catalog.map (scoreRole (sanitizeProfile p))).filter
            (fun x => decide (x.score = s))) := by
  have hlen_ranked : ((catalog.map (scoreRole (sanitizeProfile p))).insertionSort
      scoreDescRel).length = catalog.length := by
    rw [List.length_insertionSort, List.length_map]
  have hlen_top : (((catalog.map (scoreRole (sanitizeProfile p))).insertionSort
      scoreDescRel).take 3).length = 3 := by
    rw [List.length_take, hlen_ranked]
    omega
  have hmem_top : ∀ sr ∈ ((catalog.map (scoreRole (sanitizeProfile p))).insertionSort
      scoreDescRel).take 3,
      ∃ role ∈ catalog, sr = scoreRole (sanitizeProfile p) role := by
    intro sr hsr
    have h1 : sr ∈ (catalog.map (scoreRole (sanitizeProfile p))).insertionSort scoreDescRel :=
      (List.take_sublist _ _).subset hsr
    have h2 : sr ∈ catalog.map (scoreRole (sanitizeProfile p)) :=
      (List.mem_insertionSort _).mp h1
    obtain ⟨role, hrole, rfl⟩ := List.mem_map.mp h2
    exact ⟨role, hrole, rfl⟩
  have hitems : ∀ r ∈ (((catalog.map (scoreRole (sanitizeProfile p))).insertionSort
      scoreDescRel).take 3).map
      (buildRecommendation (sanitizeProfile p) (fun _ => none)
        (fun _ => (GenAttempt.backendError, GenAttempt.backendError))),
      recItemValid r = true := by
    intro r hr
    obtain ⟨sr, hsr, rfl⟩ := List.mem_map.mp hr
    obtain ⟨role, hrole, rfl⟩ := hmem_top sr hsr
    obtain ⟨⟨hid1, hid2⟩, ⟨ht1, ht2⟩, hskills⟩ := hmeta role hrole
    obtain ⟨hov_names, hgp_names, hov_len, hgp_len⟩ :=
      calculateSkillOverlap_facts (sanitizeProfile p).skills role
    have hscore := formatFitScore_bounds
      (cosine (buildUserVector (sanitizeProfile p).skills) (buildRoleVector role))
      ((overlapRatioFn (sanitizeProfile p).skills role : ℚ) : ℝ)
    have hwhy := generateExplanation_none_length
      (calculateSkillOverlap (sanitizeProfile p).skills role).1
      (calculateSkillOverlap (sanitizeProfile p).skills role).2
      hov_len
      (fun x hx => by
        obtain ⟨sk, hsk, rfl⟩ := hgp_names x hx
        exact hskills sk hsk)
    have hplan : planSchemaValid (deterministicFallbackPlan (sanitizeProfile p)
        (calculateSkillOverlap (sanitizeProfile p).skills role).2 role.title) = true :=
      deterministicFallbackPlan_schemaValid _ _ _ (by omega)
    rw [buildRecommendation_fallback_fields]
    unfold recItemValid
    simp only [Bool.and_eq_true, decide_eq_true_eq, and_assoc]
    exact ⟨hid1, hid2, ht1, ht2, hscore.1, hscore.2, hwhy.1, hwhy.2, hov_len, hgp_len, hplan⟩
  have hempty : (((catalog.map (scoreRole (sanitizeProfile p))).insertionSort
      scoreDescRel).take 3).isEmpty = false := by
    cases htop : ((catalog.map (scoreRole (sanitizeProfile p))).insertionSort
        scoreDescRel).take 3 with
    | nil => rw [htop] at hlen_top; simp at hlen_top
    | cons a t => rfl
  have hvalid_resp : recResponseValid
      ((((catalog.map (scoreRole (sanitizeProfile p))).insertionSort
        scoreDescRel).take 3).map
        (buildRecommendation (sanitizeProfile p) (fun _ => none)
          (fun _ => (GenAttempt.backendError, GenAttempt.backendError)))) = true := by
    unfold recResponseValid
    rw [Bool.and_eq_true]
    constructor
    · rw [decide_eq_true_eq, List.length_map]
      exact hlen_top
    · rw [List.all_eq_true]
      exact hitems
  refine ⟨_, ?_, ?_, ?_, ?_, rfl, ?_⟩
  · unfold recommendFallback recommendCore calculateTop3Roles
    rw [hp]
    simp only [Bool.not_true, Bool.false_eq_true, if_false, hempty, hvalid_resp]
  · rw [List.length_map, hlen_top]
    omega
  · have hsorted : List.Sorted scoreDescRel
        ((catalog.map (scoreRole (sanitizeProfile p))).insertionSort scoreDescRel) :=
      List.sorted_insertionSort scoreDescRel _
    have htops : (((catalog.map (scoreRole (sanitizeProfile p))).insertionSort
        scoreDescRel).take 3).Pairwise scoreDescRel :=
      hsorted.sublist (List.take_sublist _ _)
    exact List.pairwise_map.mpr htops
  · intro r hr
    obtain ⟨sr, hsr, rfl⟩ := List.mem_map.mp hr
    obtain ⟨role, hrole, rfl⟩ := hmem_top sr hsr
    obtain ⟨_, ⟨_, ht2⟩, _⟩ := hmeta role hrole
    rw [buildRecommendation_fallback_fields]
    exact deterministicFallbackPlan_schemaValid (sanitizeProfile p)
      ((calculateSkillOverlap (sanitizeProfile p).skills role).2) role.title (by omega)
  · intro s
    exact insertionSort_filter_stable _ s

/-- Concrete instantiation of `recommend_contract`. -/
theorem recommend_contract_witness :
    (recommendFallback exCatalog exRawProfile).isOk = true := by
  obtain ⟨recs, h1, _⟩ :=
    recommend_contract exCatalog exRawProfile (by decide) (by decide) (by decide)
  rw [h1]
  rfl

/-- Concrete instantiation of `formatFitScore_spec`. -/
theorem formatFitScore_spec_witness : formatFitScore 1 1 = 100 ∧ formatFitScore 0 0 = 0 :=
  ⟨(formatFitScore_spec 1 1).2.2.1, (formatFitScore_spec 0 0).2.2.2⟩
